import Mathlib

/-!
Shallow embedding of the PubSubHubbub hub (`hub/main.py`) sufficient to settle
the frozen claims about its subscription lifecycle, fetch/retry bookkeeping,
event building and delivery bookkeeping, and feed-identity alias expansion.

Modelling conventions:
* Times (`datetime` values) are natural numbers of seconds; `timedelta`
  addition is `+` on `ℕ`.
* `sha1` hex digests are 40 lowercase hex characters, so lexicographic order
  on digests coincides with numeric order of the value they denote; digest
  fields (`callback_hash` and friends) are therefore modelled as `ℕ`, and the
  hash functions themselves are abstract parameters (the hub only ever
  compares and orders digests).
* Datastore key names (`get_hash_key_name`) are injective in their input, so
  stores are modelled as functions keyed directly by the hashed string.
* The datastore is explicit state: a function from keys to `Option` records;
  a transaction body becomes a pure function from the pre-state (plus its
  inputs) to the post-state and result.
* Task-queue enqueues are recorded as booleans/flags in the result.
-/

namespace Hub

/-- `MAX_SUBSCRIPTION_CONFIRM_FAILURES = 4` in `main.py`. -/
def MAX_SUBSCRIPTION_CONFIRM_FAILURES : ℕ := 4

/-- `SUBSCRIPTION_RETRY_PERIOD = 30` seconds in `main.py`. -/
def SUBSCRIPTION_RETRY_PERIOD : ℕ := 30

/-- `MAX_FEED_PULL_FAILURES = 4` in `main.py`. -/
def MAX_FEED_PULL_FAILURES : ℕ := 4

/-- `FEED_PULL_RETRY_PERIOD = 30` seconds in `main.py`. -/
def FEED_PULL_RETRY_PERIOD : ℕ := 30

/-- `MAX_DELIVERY_FAILURES = 4` in `main.py`. -/
def MAX_DELIVERY_FAILURES : ℕ := 4

/-- `DELIVERY_RETRY_PERIOD = 30` seconds in `main.py`. -/
def DELIVERY_RETRY_PERIOD : ℕ := 30

/-- `MAX_LEASE_SECONDS = 10 * 24 * 60 * 60` in `main.py`. -/
def MAX_LEASE_SECONDS : ℕ := 10 * 24 * 60 * 60

/-- `DEFAULT_LEASE_SECONDS = 5 * 24 * 60 * 60` in `main.py`. -/
def DEFAULT_LEASE_SECONDS : ℕ := 5 * 24 * 60 * 60

/-- `MAX_NEW_FEED_ENTRY_RECORDS = 200` in `main.py`. -/
def MAX_NEW_FEED_ENTRY_RECORDS : ℕ := 200

/-- `MAX_FEED_RECORD_SAVES = 100` in `main.py`. -/
def MAX_FEED_RECORD_SAVES : ℕ := 100

/-- `PUT_SPLITTING_ATTEMPTS = 10` in `main.py`. -/
def PUT_SPLITTING_ATTEMPTS : ℕ := 10

/-- The three `Subscription.subscription_state` values. -/
inductive SubState where
  | not_verified
  | verified
  | to_delete
deriving DecidableEq, Repr

/-- A `Subscription` datastore entity (`class Subscription(db.Model)`).
`verify_token` and `secret` are `TextProperty` values that may be unset
(`None`) — modelled as `Option String`.  `callback_hash`/`topic_hash` are
sha1 digests (see module comment on why digests are `ℕ`). -/
structure Subscription where
  callback : String
  callback_hash : ℕ
  topic : String
  topic_hash : ℕ
  created_time : ℕ
  lease_seconds : ℕ
  expiration_time : ℕ
  eta : ℕ
  confirm_failures : ℕ
  verify_token : Option String
  secret : Option String
  subscription_state : SubState
deriving DecidableEq, Repr

namespace Subscription

/-- The transaction body of `Subscription.insert`.  `prior` is the row found
under `create_key_name(callback, topic)` (`None` when absent); `sha1h` stands
for `sha1_hash`.  Returns the row that is `put()` plus `sub_is_new`. -/
def insert (sha1h : String → ℕ) (prior : Option Subscription)
    (callback topic : String) (verify_token secret : Option String)
    (lease_seconds : ℕ) (now : ℕ) : Subscription × Bool :=
  let (sub, sub_is_new) : Subscription × Bool :=
    match prior with
    | none =>
        ({ callback := callback
           callback_hash := sha1h callback
           topic := topic
           topic_hash := sha1h topic
           created_time := now
           lease_seconds := lease_seconds
           expiration_time := now
           eta := now
           confirm_failures := 0
           verify_token := verify_token
           secret := secret
           subscription_state := SubState.not_verified }, true)
    | some s => (s, false)
  ({ sub with
      subscription_state := SubState.verified
      expiration_time := now + lease_seconds
      confirm_failures := 0
      verify_token := verify_token
      secret := secret }, sub_is_new)

/-- The transaction body of `Subscription.archive`: if the row exists, mark it
`to_delete` and zero `confirm_failures`; otherwise no-op. -/
def archive (prior : Option Subscription) : Option Subscription :=
  prior.map fun sub =>
    { sub with subscription_state := SubState.to_delete, confirm_failures := 0 }

/-- Result of `Subscription.confirm_failed`: the boolean the function returns,
the row as stored after the call, and whether a retry task was enqueued. -/
structure ConfirmFailedResult where
  retry : Bool
  stored : Subscription
  task_enqueued : Bool
deriving DecidableEq, Repr

/-- The transaction body of `Subscription.confirm_failed`.  When
`confirm_failures >= max_failures` it returns `False` without `put()` or
`enqueue_task`; otherwise it backs off `retry_period * 2 ** confirm_failures`
seconds, increments the counter, `put()`s and enqueues. -/
def confirm_failed (sub : Subscription)
    (max_failures : ℕ := MAX_SUBSCRIPTION_CONFIRM_FAILURES)
    (retry_period : ℕ := SUBSCRIPTION_RETRY_PERIOD)
    (now : ℕ := 0) : ConfirmFailedResult :=
  if sub.confirm_failures ≥ max_failures then
    { retry := false, stored := sub, task_enqueued := false }
  else
    let retry_delay := retry_period * 2 ^ sub.confirm_failures
    { retry := true
      stored := { sub with
                    eta := now + retry_delay
                    confirm_failures := sub.confirm_failures + 1 }
      task_enqueued := true }

end Subscription

/-- A `FeedToFetch` datastore entity (the fields the claims touch). -/
structure FeedToFetch where
  topic : String
  eta : ℕ
  fetching_failures : ℕ
  totally_failed : Bool
deriving DecidableEq, Repr

namespace FeedToFetch

/-- Result of `FeedToFetch.fetch_failed`: the record as stored after the
transaction and whether `_enqueue_retry_task` ran. -/
structure FetchFailedResult where
  stored : FeedToFetch
  retry_enqueued : Bool
deriving DecidableEq, Repr

/-- The transaction body of `FeedToFetch.fetch_failed`.  At or above
`max_failures` prior failures it sets `totally_failed`; otherwise it backs off
`retry_period * 2 ** fetching_failures`, increments the counter and enqueues a
retry task.  Both branches `put()`. -/
def fetch_failed (self : FeedToFetch)
    (max_failures : ℕ := MAX_FEED_PULL_FAILURES)
    (retry_period : ℕ := FEED_PULL_RETRY_PERIOD)
    (now : ℕ := 0) : FetchFailedResult :=
  if self.fetching_failures ≥ max_failures then
    { stored := { self with totally_failed := true }, retry_enqueued := false }
  else
    let retry_delay := retry_period * 2 ^ self.fetching_failures
    { stored := { self with
                    eta := now + retry_delay
                    fetching_failures := self.fetching_failures + 1 }
      retry_enqueued := true }

/-- The transaction body of `FeedToFetch.done`.  `stored` is the entity found
under `self.key()` (`None` when absent); the result is the post-transaction
contents of that key plus the returned boolean. -/
def done (self : FeedToFetch) (stored : Option FeedToFetch) :
    Option FeedToFetch × Bool :=
  match stored with
  | some other => if other.eta = self.eta then (none, true) else (stored, false)
  | none => (stored, false)

end FeedToFetch

/-- The `delivery_mode` values of `EventToDeliver`. -/
inductive DeliveryMode where
  | normal
  | retry
deriving DecidableEq, Repr

/-- The slice of a `Subscription` entity that `EventToDeliver.update` reads
from each member of `more_failed_callbacks`: its datastore key (`e.key()`,
a string key name) and its stored `callback_hash` digest. -/
structure SubRef where
  key : String
  callback_hash : ℕ
deriving DecidableEq, Repr

/-- An `EventToDeliver` datastore entity (the fields the claims touch).
`failed_callbacks` is the stored list of `Subscription` keys;
`max_failures` is the per-event override (`None` means use the
`MAX_DELIVERY_FAILURES` constant). -/
structure EventToDeliver where
  topic : String
  last_callback : String
  failed_callbacks : List String
  delivery_mode : DeliveryMode
  retry_attempts : ℕ
  last_modified : ℕ
  totally_failed : Bool
  max_failures : Option ℕ
deriving DecidableEq, Repr

namespace EventToDeliver

/-- `sorted(more_failed_callbacks, key=lambda x: x.callback_hash)`:
Python's ascending sort keyed by the stored `callback_hash`. -/
def sortFailed (l : List SubRef) : List SubRef :=
  List.insertionSort (fun a b => a.callback_hash ≤ b.callback_hash) l

/-- Result of `EventToDeliver.update`: `none` when the event was deleted
(fully delivered); otherwise the entity as `put()` plus whether `enqueue()`
ran (it runs in the closing transaction iff `totally_failed` is unset). -/
def update (self : EventToDeliver) (more_callbacks : Bool)
    (more_failed_callbacks : List SubRef)
    (now : ℕ := 0)
    (max_failures : ℕ := MAX_DELIVERY_FAILURES)
    (retry_period : ℕ := DELIVERY_RETRY_PERIOD) :
    Option (EventToDeliver × Bool) :=
  let self := { self with last_modified := now }
  -- The code sorts only the incoming failures, then extends the stored list.
  let sorted_failed := sortFailed more_failed_callbacks
  let self := { self with
      failed_callbacks := self.failed_callbacks ++ sorted_failed.map SubRef.key }
  if ¬more_callbacks ∧ self.failed_callbacks = [] then
    none  -- self.delete(); return
  else
    let self :=
      if ¬more_callbacks then
        let self := { self with
            last_callback := ""
            retry_attempts := self.retry_attempts + 1 }
        let max_failures := self.max_failures.getD max_failures
        let self :=
          if self.retry_attempts > max_failures then
            { self with totally_failed := true }
          else
            -- `retry_period * (2 ** (self.retry_attempts - 1))`; the
            -- OverflowError guard cannot fire over ℕ.
            { self with last_modified :=
                self.last_modified + retry_period * 2 ^ (self.retry_attempts - 1) }
        -- `if delivery_mode == NORMAL: delivery_mode = RETRY` (else it already
        -- is RETRY), so the mode is RETRY on this branch either way.
        { self with delivery_mode := DeliveryMode.retry }
      else self
    some (self, !self.totally_failed)

end EventToDeliver

/-! ### Subscription verification (`confirm_subscription`) -/

/-- Outcome of the verification `GET` to the callback: `fetch_error` models
`urlfetch_errors.Error` being raised; otherwise the response's status code
and body. -/
inductive FetchOutcome where
  | fetch_error
  | response (status_code : ℕ) (content : String)
deriving DecidableEq, Repr

/-- Result of `confirm_subscription`: the returned boolean and the
post-call contents of the Subscription row for `(callback, topic)`. -/
structure ConfirmSubscriptionResult where
  ok : Bool
  row : Option Subscription
deriving DecidableEq, Repr

/-- `confirm_subscription(mode, topic, callback, verify_token, secret,
lease_seconds)`.  `challenge` stands for `get_random_challenge()`; `outcome`
is the verification fetch's result; `prior` is the Subscription row before
the call.  On 2xx with the body equal to the challenge: `subscribe` runs
`Subscription.insert` (with the lease capped at `MAX_LEASE_SECONDS`),
anything else runs `Subscription.remove`; on 404 for `subscribe` it runs
`Subscription.archive`; every other outcome returns `False` and touches
nothing. -/
def confirm_subscription (sha1h : String → ℕ) (mode topic callback : String)
    (verify_token secret : Option String) (lease_seconds : ℕ)
    (challenge : String) (outcome : FetchOutcome)
    (prior : Option Subscription) (now : ℕ) : ConfirmSubscriptionResult :=
  let real_lease_seconds := min lease_seconds MAX_LEASE_SECONDS
  match outcome with
  | FetchOutcome.fetch_error => { ok := false, row := prior }
  | FetchOutcome.response status_code content =>
      if 200 ≤ status_code ∧ status_code < 300 ∧ content = challenge then
        if mode = "subscribe" then
          { ok := true
            row := some (Subscription.insert sha1h prior callback topic
                           verify_token secret real_lease_seconds now).1 }
        else
          -- `Subscription.remove(callback, topic)` deletes the row iff present.
          { ok := true, row := none }
      else if mode = "subscribe" ∧ status_code = 404 then
        { ok := true, row := Subscription.archive prior }
      else
        { ok := false, row := prior }

/-! ### Delivery POST headers (`PushEventHandler.post`) -/

/-- Python's `a or b` on a `TextProperty` value: `None` and `''` are falsy. -/
def orElseText (a : Option String) (b : String) : String :=
  match a with
  | some s => if s = "" then b else s
  | none => b

/-- The headers dict built per subscriber inside `PushEventHandler.post`.
`sha1_hmac` is the hex HMAC-SHA1 primitive (abstract here); `payload` is
`utf8encoded(work.payload)`. -/
def push_event_headers (sha1_hmac : String → String → String)
    (sub : Subscription) (content_type : String) (payload : String) :
    List (String × String) :=
  [("Content-Type", if content_type = "" then "text/xml" else content_type),
   ("X-Hub-Signature",
     "sha1=" ++ sha1_hmac (orElseText sub.secret (orElseText sub.verify_token "")) payload)]

/-! ### Diff and event building (`find_feed_updates`, `parse_feed`) -/

/-- A `FeedEntryRecord` as produced by `create_entry_for_topic`: the entry id
and the sha1 digest of its full XML (digests as `ℕ`, see module comment). -/
structure FeedEntryRecord where
  entry_id : String
  entry_content_hash : ℕ
deriving DecidableEq, Repr

/-- The loop body of the diff in `find_feed_updates`: keep an entry iff its
new content hash differs from the stored one (or nothing is stored). -/
def findStep (stored : String → Option ℕ) (h : String → ℕ)
    (acc : List FeedEntryRecord × List String) (ic : String × String) :
    List FeedEntryRecord × List String :=
  let new_content_hash := h ic.2
  match stored ic.1 with
  | some old_content_hash =>
      if old_content_hash = new_content_hash then acc
      else (acc.1 ++ [⟨ic.1, new_content_hash⟩], acc.2 ++ [ic.2])
  | none => (acc.1 ++ [⟨ic.1, new_content_hash⟩], acc.2 ++ [ic.2])

/-- The diff step of `find_feed_updates` for XML formats.  `entries_map` is
`filter_feed`'s `{entry_id: entry_xml}` mapping (an association list in
document-iteration order); `stored` gives the `entry_content_hash` of the
existing `FeedEntryRecord` for an entry id, if any (the code fetches these in
chunks of 500 and keys its dict by `sha1(entry_id)`, which is injective in the
id); `h` stands for `sha1_hash`.  Returns
`(entities_to_save, entry_payloads)`. -/
def find_feed_updates (stored : String → Option ℕ) (h : String → ℕ)
    (entries_map : List (String × String)) :
    List FeedEntryRecord × List String :=
  entries_map.foldl (findStep stored h) ([], [])

/-- Feed formats distinguished by `parse_feed`. -/
inductive FeedFormat where
  | atom
  | rss
  | arbitrary
deriving DecidableEq, Repr

/-- What the post-parse stage of `parse_feed` decides, before the datastore
commit: the returned `parse_successful` flag, the `FeedEntryRecord`s that go
into `entities_to_save`, and the entry payloads spliced into the
`EventToDeliver` (`none` when no event is created). -/
structure ParseFeedOutcome where
  parse_successful : Bool
  saved_records : List FeedEntryRecord
  event_payloads : Option (List String)
deriving DecidableEq, Repr

/-- `parse_feed` after a successful `find_feed_updates` call (`main.py` lines
following the parse loop): when the diff holds more than
`MAX_NEW_FEED_ENTRY_RECORDS` entries, both lists are truncated to the first
200 and `parse_successful` is `False`; otherwise the `FeedRecord` is updated
and `parse_successful` is `True`.  An `EventToDeliver` is created unless the
format is XML and no entries changed. -/
def parse_feed_diffed (format : FeedFormat)
    (diff : List FeedEntryRecord × List String) : ParseFeedOutcome :=
  let entities_to_save := diff.1
  let entry_payloads := diff.2
  if entities_to_save.length > MAX_NEW_FEED_ENTRY_RECORDS then
    { parse_successful := false
      saved_records := entities_to_save.take MAX_NEW_FEED_ENTRY_RECORDS
      event_payloads := some (entry_payloads.take MAX_NEW_FEED_ENTRY_RECORDS) }
  else if format ≠ FeedFormat.arbitrary ∧ entities_to_save = [] then
    { parse_successful := true, saved_records := [], event_payloads := none }
  else
    { parse_successful := true
      saved_records := entities_to_save
      event_payloads := some entry_payloads }

/-- The effect on the stored entry table of committing a set of
`FeedEntryRecord`s (each `put()` overwrites the row keyed by the entry id). -/
def applyRecords (stored : String → Option ℕ) (records : List FeedEntryRecord) :
    String → Option ℕ :=
  fun id =>
    match records.find? (fun r => r.entry_id = id) with
    | some r => some r.entry_content_hash
    | none => stored id

/-! ### The `parse_feed` commit transaction (put splitting) -/

/-- The kinds of entities in `parse_feed`'s `entities_to_save` list:
the `FeedRecord`, the `EventToDeliver` (when one was created), and the
`FeedEntryRecord`s, indexed by position in the diff. -/
inductive PutEntity where
  | feed_record
  | event
  | entry (n : ℕ)
deriving DecidableEq, Repr

/-- The segmentation loop `for position in xrange(0, len(entities_to_save),
STEP)` with `STEP = MAX_FEED_RECORD_SAVES`: consecutive slices of 100. -/
def putGroups (entities : List PutEntity) : List (List PutEntity) :=
  (List.range ((entities.length + MAX_FEED_RECORD_SAVES - 1) /
      MAX_FEED_RECORD_SAVES)).map
    fun i => (entities.drop (i * MAX_FEED_RECORD_SAVES)).take MAX_FEED_RECORD_SAVES

/-- One run of the closure `txn()` in `parse_feed`.  `tooBig` tells whether
`db.put(group)` raises `RequestTooLargeError` (determined by the group's
serialized size).  The loop pops groups off the shared `all_entities` list;
a successful `db.put` buffers the group's writes in the open transaction; a
too-large group is split in half, both halves are pushed back onto the front
of `all_entities`, and the exception aborts the transaction — discarding the
buffered writes, but *not* restoring the groups already popped.
Returns either the writes of the committed transaction (`Sum.inl`) or the
`all_entities` list left behind by the aborted attempt (`Sum.inr`). -/
def runPutTxn (tooBig : List PutEntity → Bool) :
    List (List PutEntity) → List PutEntity →
    List PutEntity ⊕ List (List PutEntity)
  | [], committed => Sum.inl committed
  | group :: rest, committed =>
      if tooBig group then
        Sum.inr (group.take (group.length / 2) ::
                 group.drop (group.length / 2) :: rest)
      else runPutTxn tooBig rest (committed ++ group)

/-- The retry loop `for i in xrange(PUT_SPLITTING_ATTEMPTS)` around
`db.run_in_transaction(txn)`: rerun the transaction on whatever is left of
`all_entities` until it commits or the attempts are exhausted (`none`, the
"dropping event" path). -/
def commitAttempts (tooBig : List PutEntity → Bool) :
    ℕ → List (List PutEntity) → Option (List PutEntity)
  | 0, _ => none
  | fuel + 1, groups =>
      match runPutTxn tooBig groups [] with
      | Sum.inl committed => some committed
      | Sum.inr groups2 => commitAttempts tooBig fuel groups2

/-- Result of `parse_feed`'s commit phase: the entities written by the
transaction that finally committed, and whether `event_to_deliver.enqueue()`
ran inside it (it runs whenever the closure variable `event_to_deliver` is
non-`None`, regardless of which entities the committing attempt still held). -/
structure CommitResult where
  committed : List PutEntity
  delivery_task_enqueued : Bool
deriving DecidableEq, Repr

/-- The whole commit phase of `parse_feed` over `entities_to_save`. -/
def parse_feed_commit (tooBig : List PutEntity → Bool)
    (entities : List PutEntity) : Option CommitResult :=
  match commitAttempts tooBig PUT_SPLITTING_ATTEMPTS (putGroups entities) with
  | some committed =>
      some { committed := committed
             delivery_task_enqueued := entities.contains PutEntity.event }
  | none => none

/-! ### Feed identity index (`KnownFeed`, `KnownFeedIdentity`) -/

/-- A `KnownFeed` datastore entity (keyed by its topic's hash; stores are
keyed directly by the topic here, see module comment). -/
structure KnownFeed where
  topic : String
  feed_id : Option String
deriving DecidableEq, Repr

/-- A `KnownFeedIdentity` datastore entity (keyed by its feed id's hash). -/
structure KnownFeedIdentity where
  feed_id : String
  topics : List String
deriving DecidableEq, Repr

/-- Python's `str.strip()`: drop leading and trailing whitespace (executable
over the character list, unlike `String.trim`). -/
def pyStrip (s : String) : String :=
  String.mk (((s.data.dropWhile Char.isWhitespace).reverse.dropWhile
    Char.isWhitespace).reverse)

namespace KnownFeedIdentity

/-- The transaction body of `KnownFeedIdentity.update`: create the entity if
absent, append the topic to `topics` if it is not already listed. -/
def update (store : String → Option KnownFeedIdentity) (feed_id topic : String) :
    String → Option KnownFeedIdentity :=
  let known_feed := (store feed_id).getD { feed_id := feed_id, topics := [] }
  let known_feed :=
    if topic ∈ known_feed.topics then known_feed
    else { known_feed with topics := known_feed.topics ++ [topic] }
  fun k => if k = feed_id then some known_feed else store k

/-- The transaction body of `KnownFeedIdentity.remove`: drop the topic
(no-op if the entity or the topic is absent); delete the entity when its
topic list empties. -/
def remove (store : String → Option KnownFeedIdentity) (feed_id topic : String) :
    String → Option KnownFeedIdentity :=
  match store feed_id with
  | none => store
  | some known_feed =>
      if topic ∈ known_feed.topics then
        let remaining := known_feed.topics.erase topic
        if remaining = [] then
          fun k => if k = feed_id then none else store k
        else
          fun k =>
            if k = feed_id then some { known_feed with topics := remaining }
            else store k
      else store

/-- Insert a topic into a set-of-topics accumulator (`set.update`, membership
semantics, insertion order kept). -/
def setInsert (s : List String) (t : String) : List String :=
  if t ∈ s then s else s ++ [t]

/-- `KnownFeedIdentity.derive_additional_topics(topics)`.  `kf` is the
`KnownFeed` store (keyed by topic), `kfi` this store (keyed by feed id).
First pass: topics with no `KnownFeed` are omitted; topics whose `KnownFeed`
has no feed id (or a blank one after `strip()`) map to `{self}`; the rest are
collected with their (unstripped) feed id.  Second pass: for each collected
topic whose `KnownFeedIdentity` exists, start from `{topic}` and union in the
identity's topics unless there are more than 25 of them. -/
def derive_additional_topics (kf : String → Option KnownFeed)
    (kfi : String → Option KnownFeedIdentity) (topics : List String) :
    String → Option (List String) :=
  let found := topics.dedup.filterMap kf
  let step1 :=
    found.foldl
      (fun (acc : (String → Option (List String)) × List (String × String)) feed =>
        match feed.feed_id with
        | some fid =>
            if pyStrip fid ≠ "" then (acc.1, acc.2 ++ [(feed.topic, fid)])
            else
              ((fun k => if k = feed.topic then some [feed.topic] else acc.1 k),
               acc.2)
        | none =>
            ((fun k => if k = feed.topic then some [feed.topic] else acc.1 k),
             acc.2))
      ((fun _ => none), [])
  step1.2.foldl
    (fun out p =>
      match kfi p.2 with
      | none => out
      | some identified =>
          let topic_set := (out p.1).getD [p.1]
          let topic_set :=
            if identified.topics.length > 25 then topic_set
            else identified.topics.foldl setInsert topic_set
          fun k => if k = p.1 then some topic_set else out k)
    step1.1

end KnownFeedIdentity

/-! ### Concrete inputs used by counterexamples and witnesses -/

/-- A subscription row used by witnesses: two prior confirm failures. -/
def subW : Subscription :=
  { callback := "http://x.test/cb"
    callback_hash := 7
    topic := "http://y.test/f"
    topic_hash := 9
    created_time := 100
    lease_seconds := DEFAULT_LEASE_SECONDS
    expiration_time := 5000
    eta := 100
    confirm_failures := 2
    verify_token := some "tok"
    secret := none
    subscription_state := SubState.not_verified }

/-- A feed-to-fetch record with two prior fetch failures. -/
def feedW : FeedToFetch :=
  { topic := "http://y.test/f"
    eta := 100
    fetching_failures := 2
    totally_failed := false }

/-- An event in retry mode whose remaining failed callback (`"kZ"`, digest
`99`) hashes above the subscriber (`"kA"`, digest `10`) that fails during the
current chunk — the state `get_next_subscribers` leaves behind after popping
the front of the failed list in a retry cycle. -/
def evR : EventToDeliver :=
  { topic := "http://y.test/f"
    last_callback := "http://cb/a"
    failed_callbacks := ["kZ"]
    delivery_mode := DeliveryMode.retry
    retry_attempts := 0
    last_modified := 0
    totally_failed := false
    max_failures := none }

/-- The `callback_hash` digests of the subscription entities behind the keys
in `evR.failed_callbacks` and the newly failed chunk. -/
def hashOfKey : String → ℕ := fun k => if k = "kZ" then 99 else 10

/-- Serialized sizes driving `RequestTooLargeError`: the first 98 entries are
small, the rest carry large XML payloads. -/
def entitySize : PutEntity → ℕ
  | PutEntity.feed_record => 10
  | PutEntity.event => 50
  | PutEntity.entry n => if n < 98 then 5 else 30

/-- `db.put(group)` raises `RequestTooLargeError` iff the group serializes
over the RPC size limit. -/
def tooBigRpc : List PutEntity → Bool :=
  fun g => decide (1500 < (g.map entitySize).sum)

/-- A 159-entry diff: `entities_to_save = [feed_record, event, entry 0, ...,
entry 158]`, exactly as `parse_feed` assembles the list. -/
def entitiesSplit : List PutEntity :=
  PutEntity.feed_record :: PutEntity.event :: (List.range 159).map PutEntity.entry

/-- A `KnownFeed` store with one row: topic `http://a/feed` identified by
feed id `tag:feed`. -/
def kfW : String → Option KnownFeed :=
  fun t => if t = "http://a/feed" then
    some { topic := "http://a/feed", feed_id := some "tag:feed" } else none

end Hub

namespace Hub

/-! ### Helper lemmas -/

/-- The signing key exactly as the claim words it: the subscription's secret
if non-empty, otherwise its verify_token if non-empty, otherwise the empty
string. -/
def claimSignatureKey (secret verify_token : Option String) : String :=
  if secret.getD "" ≠ "" then secret.getD ""
  else if verify_token.getD "" ≠ "" then verify_token.getD "" else ""

/-- The relation `sorted(..., key=lambda x: x.callback_hash)` sorts by. -/
def byHash (a b : SubRef) : Prop := a.callback_hash ≤ b.callback_hash

instance : DecidableRel byHash := fun a b => Nat.decLe _ _

instance : IsTotal SubRef byHash := ⟨fun a b => Nat.le_total _ _⟩

instance : IsTrans SubRef byHash := ⟨fun _ _ _ => Nat.le_trans⟩

/-- The predicate deciding whether the diff keeps an entry. -/
def keepEntry (stored : String → Option ℕ) (h : String → ℕ)
    (ic : String × String) : Bool :=
  decide (¬ stored ic.1 = some (h ic.2))

theorem sortFailed_sorted (l : List SubRef) :
    List.Sorted byHash (EventToDeliver.sortFailed l) := by
  have h := List.sorted_insertionSort byHash l
  have heq : EventToDeliver.sortFailed l = List.insertionSort byHash l := rfl
  rwa [heq]

theorem findStep_foldl (stored : String → Option ℕ) (h : String → ℕ)
    (entries : List (String × String))
    (a : List FeedEntryRecord) (b : List String) :
    entries.foldl (findStep stored h) (a, b) =
      (a ++ (entries.filter (keepEntry stored h)).map
          (fun ic => (⟨ic.1, h ic.2⟩ : FeedEntryRecord)),
       b ++ (entries.filter (keepEntry stored h)).map Prod.snd) := by
  induction entries generalizing a b with
  | nil => simp
  | cons ic rest ih =>
      simp only [List.foldl_cons, List.filter_cons]
      cases hs : stored ic.1 with
      | none =>
          simp [findStep, keepEntry, hs, ih]
      | some old =>
          by_cases he : old = h ic.2
          · simp [findStep, keepEntry, hs, he, ih]
          · simp [findStep, keepEntry, hs, he, ih]

/-- `find_feed_updates` keeps exactly the entries whose stored content hash
is absent or different, in document order. -/
theorem find_feed_updates_eq (stored : String → Option ℕ) (h : String → ℕ)
    (entries : List (String × String)) :
    find_feed_updates stored h entries =
      ((entries.filter (keepEntry stored h)).map
          (fun ic => (⟨ic.1, h ic.2⟩ : FeedEntryRecord)),
       (entries.filter (keepEntry stored h)).map Prod.snd) := by
  simpa [find_feed_updates] using findStep_foldl stored h entries [] []

end Hub

namespace Hub

/-! ### C4 — `FeedToFetch.done` -/

/-- C4: `FeedToFetch.done()` deletes the stored FeedToFetch entity iff an
entity exists under the topic's key with stored `eta` equal to the in-memory
copy's `eta`; it returns `True` exactly when the deletion happened, and on
`False` (eta differs or entity absent) the stored entity is untouched. -/
theorem C4_done_deletes_iff_eta_matches (self : FeedToFetch)
    (stored : Option FeedToFetch) :
    ((FeedToFetch.done self stored).2 = true ↔
      ∃ other, stored = some other ∧ other.eta = self.eta) ∧
    ((FeedToFetch.done self stored).2 = true →
      (FeedToFetch.done self stored).1 = none) ∧
    ((FeedToFetch.done self stored).2 = false →
      (FeedToFetch.done self stored).1 = stored) := by
  cases stored with
  | none => simp [FeedToFetch.done]
  | some other =>
      by_cases he : other.eta = self.eta <;> simp [FeedToFetch.done, he]

/-- Witness for C4: with matching etas the record is deleted and `True`
returned. -/
theorem C4_witness :
    (FeedToFetch.done feedW (some feedW)).2 = true ∧
    (FeedToFetch.done feedW (some feedW)).1 = none := by
  have t := C4_done_deletes_iff_eta_matches feedW (some feedW)
  exact ⟨t.1.mpr ⟨feedW, rfl, rfl⟩, t.2.1 (t.1.mpr ⟨feedW, rfl, rfl⟩)⟩

/-! ### C10 — `Subscription.confirm_failed` give-up path -/

/-- C10: when `confirm_failures` is already at or above `max_failures`,
`confirm_failed` returns `False` without modifying the Subscription entity
and without enqueueing any task. -/
theorem C10_confirm_failed_giveup_is_pure (sub : Subscription)
    (max_failures retry_period now : ℕ)
    (h : sub.confirm_failures ≥ max_failures) :
    Subscription.confirm_failed sub max_failures retry_period now =
      { retry := false, stored := sub, task_enqueued := false } := by
  simp [Subscription.confirm_failed, h]

/-- Witness for C10 at the default limits with four recorded failures. -/
theorem C10_witness :
    Subscription.confirm_failed { subW with confirm_failures := 4 }
        MAX_SUBSCRIPTION_CONFIRM_FAILURES SUBSCRIPTION_RETRY_PERIOD 500 =
      { retry := false, stored := { subW with confirm_failures := 4 },
        task_enqueued := false } :=
  C10_confirm_failed_giveup_is_pure _ _ _ _ (by decide)

/-! ### C9 — `Subscription.insert` on an existing row -/

/-- C9: inserting over an existing Subscription row overwrites exactly
`subscription_state` (to verified), `expiration_time` (to `now +` the newly
supplied lease), `confirm_failures` (to 0), `verify_token` and `secret`;
in particular the stored `lease_seconds` keeps its previous value and the
row is reported as not newly created. -/
theorem C9_insert_preserves_lease (sha1h : String → ℕ)
    (prior : Option Subscription) (callback topic : String)
    (verify_token secret : Option String) (lease_seconds now : ℕ)
    (s : Subscription) (hp : prior = some s) :
    Subscription.insert sha1h prior callback topic verify_token secret
        lease_seconds now =
      ({ s with
          subscription_state := SubState.verified
          expiration_time := now + lease_seconds
          confirm_failures := 0
          verify_token := verify_token
          secret := secret }, false) := by
  subst hp; rfl

/-- Witness for C9: re-inserting `subW` with a different lease keeps the
stored `lease_seconds` and caps nothing else. -/
theorem C9_witness :
    Subscription.insert (fun _ => 0) (some subW) "http://x.test/cb"
        "http://y.test/f" (some "tok2") (some "s3cr3t") 1234 900 =
      ({ subW with
          subscription_state := SubState.verified
          expiration_time := 900 + 1234
          confirm_failures := 0
          verify_token := some "tok2"
          secret := some "s3cr3t" }, false) :=
  C9_insert_preserves_lease (fun _ => 0) (some subW) "http://x.test/cb"
    "http://y.test/f" (some "tok2") (some "s3cr3t") 1234 900 subW rfl

/-! ### C8 — delivery signature header -/

/-- C8: every delivery POST's headers carry `X-Hub-Signature` valued
`"sha1=" ++` the hex HMAC-SHA1 of the UTF-8 payload, keyed by the secret /
verify_token / empty-string precedence of the claim. -/
theorem C8_signature_header (sha1_hmac : String → String → String)
    (sub : Subscription) (content_type payload : String) :
    ("X-Hub-Signature",
      "sha1=" ++ sha1_hmac (claimSignatureKey sub.secret sub.verify_token)
        payload) ∈ push_event_headers sha1_hmac sub content_type payload := by
  have hk : orElseText sub.secret (orElseText sub.verify_token "") =
      claimSignatureKey sub.secret sub.verify_token := by
    cases hs : sub.secret <;> cases hv : sub.verify_token <;>
      simp only [orElseText, claimSignatureKey, Option.getD] <;>
      split_ifs <;> simp_all
  simp [push_event_headers, hk]

end Hub


namespace Hub

/-- Characterization of `EventToDeliver.update` when there are no more
subscribers to contact (`more_callbacks = False`) and the combined failed
list is non-empty: bump `retry_attempts`, either mark `totally_failed`
(beyond the limit, no enqueue) or back off `retry_period * 2 ** (attempts-1)`
and enqueue, and switch to retry mode. -/
theorem update_not_more_spec (ev : EventToDeliver) (subs : List SubRef)
    (now mf rp : ℕ)
    (hcomb : ev.failed_callbacks ++
      (EventToDeliver.sortFailed subs).map SubRef.key ≠ []) :
    EventToDeliver.update ev false subs now mf rp =
      (let combined := ev.failed_callbacks ++
         (EventToDeliver.sortFailed subs).map SubRef.key
       let ra := ev.retry_attempts + 1
       let maxf := ev.max_failures.getD mf
       if ra > maxf then
         some ({ ev with
                  last_modified := now
                  failed_callbacks := combined
                  last_callback := ""
                  retry_attempts := ra
                  totally_failed := true
                  delivery_mode := DeliveryMode.retry },
               false)
       else
         some ({ ev with
                  last_modified := now + rp * 2 ^ (ra - 1)
                  failed_callbacks := combined
                  last_callback := ""
                  retry_attempts := ra
                  delivery_mode := DeliveryMode.retry },
               !ev.totally_failed)) := by
  simp only [EventToDeliver.update, Bool.not_false, hcomb]
  simp only [Bool.false_eq_true, not_false_eq_true, true_and, if_neg hcomb]
  by_cases hb : ev.retry_attempts + 1 > ev.max_failures.getD mf
  · simp [hb]
  · simp [hb]

/-- Characterization of `EventToDeliver.update` when more subscribers remain
(`more_callbacks = True`): only the timestamp and the failed list change, and
the event is re-enqueued unless already `totally_failed`. -/
theorem update_more_spec (ev : EventToDeliver) (subs : List SubRef)
    (now mf rp : ℕ) :
    EventToDeliver.update ev true subs now mf rp =
      some ({ ev with
               last_modified := now
               failed_callbacks := ev.failed_callbacks ++
                 (EventToDeliver.sortFailed subs).map SubRef.key },
            !ev.totally_failed) := by
  simp only [EventToDeliver.update]
  simp

end Hub

namespace Hub

/-! ### C2 — retry backoff and give-up boundary -/

/-- C2 counterexample: with `n = 4` prior failures — which satisfies the
claim's `n ≤ max_failures` — none of the three flows schedules a retry:
`confirm_failed` returns `False` with no task, `fetch_failed` sets
`totally_failed`, and `update` sets `totally_failed` and enqueues nothing. -/
theorem C2_counterexample :
    (4 : ℕ) ≤ MAX_SUBSCRIPTION_CONFIRM_FAILURES ∧
    Subscription.confirm_failed { subW with confirm_failures := 4 }
        MAX_SUBSCRIPTION_CONFIRM_FAILURES SUBSCRIPTION_RETRY_PERIOD 500 =
      { retry := false, stored := { subW with confirm_failures := 4 },
        task_enqueued := false } ∧
    (FeedToFetch.fetch_failed { feedW with fetching_failures := 4 }
        MAX_FEED_PULL_FAILURES FEED_PULL_RETRY_PERIOD 500).stored.totally_failed
      = true ∧
    (EventToDeliver.update { evR with retry_attempts := 4 } false [] 500).map
        (fun p => (p.1.totally_failed, p.2)) = some (true, false) :=
  ⟨by decide, by decide, by decide, by decide⟩

/-- C2 as amended: with `n` prior recorded failures, each flow schedules the
next attempt at `now + 30 * 2 ^ n` and re-enqueues for every
`n <` (not `≤`) `max_failures = 4`; at `n ≥ 4` every flow gives up
(`confirm_failed` returns `False` without a task, `fetch_failed` and
`update` set `totally_failed` and enqueue nothing). -/
theorem C2_amended_backoff_boundary (n now : ℕ) (sub : Subscription)
    (f : FeedToFetch) (ev : EventToDeliver) (subs : List SubRef)
    (hs : sub.confirm_failures = n) (hf : f.fetching_failures = n)
    (he : ev.retry_attempts = n) (hm : ev.max_failures = none)
    (htf : ev.totally_failed = false)
    (hne : ev.failed_callbacks ≠ []) :
    (n < 4 →
      Subscription.confirm_failed sub MAX_SUBSCRIPTION_CONFIRM_FAILURES
          SUBSCRIPTION_RETRY_PERIOD now =
        { retry := true
          stored := { sub with
                       eta := now + 30 * 2 ^ n
                       confirm_failures := n + 1 }
          task_enqueued := true } ∧
      FeedToFetch.fetch_failed f MAX_FEED_PULL_FAILURES FEED_PULL_RETRY_PERIOD
          now =
        { stored := { f with
                       eta := now + 30 * 2 ^ n
                       fetching_failures := n + 1 }
          retry_enqueued := true } ∧
      ∃ ev2, EventToDeliver.update ev false subs now = some (ev2, true) ∧
        ev2.totally_failed = false ∧ ev2.retry_attempts = n + 1 ∧
        ev2.last_modified = now + 30 * 2 ^ n) ∧
    (4 ≤ n →
      Subscription.confirm_failed sub MAX_SUBSCRIPTION_CONFIRM_FAILURES
          SUBSCRIPTION_RETRY_PERIOD now =
        { retry := false, stored := sub, task_enqueued := false } ∧
      (FeedToFetch.fetch_failed f MAX_FEED_PULL_FAILURES FEED_PULL_RETRY_PERIOD
          now).stored.totally_failed = true ∧
      (FeedToFetch.fetch_failed f MAX_FEED_PULL_FAILURES FEED_PULL_RETRY_PERIOD
          now).retry_enqueued = false ∧
      ∃ ev2, EventToDeliver.update ev false subs now = some (ev2, false) ∧
        ev2.totally_failed = true) := by
  have hcomb : ev.failed_callbacks ++
      (EventToDeliver.sortFailed subs).map SubRef.key ≠ [] := by
    intro hemp
    rcases List.append_eq_nil.mp hemp with ⟨h1, _⟩
    exact hne h1
  have hupd := update_not_more_spec ev subs now MAX_DELIVERY_FAILURES
    DELIVERY_RETRY_PERIOD hcomb
  constructor
  · intro hlt
    have hns : ¬ sub.confirm_failures ≥ MAX_SUBSCRIPTION_CONFIRM_FAILURES := by
      simp only [hs, MAX_SUBSCRIPTION_CONFIRM_FAILURES]; omega
    have hnf : ¬ f.fetching_failures ≥ MAX_FEED_PULL_FAILURES := by
      simp only [hf, MAX_FEED_PULL_FAILURES]; omega
    have hnd : ¬ ev.retry_attempts + 1 > ev.max_failures.getD MAX_DELIVERY_FAILURES := by
      simp only [he, hm, Option.getD, MAX_DELIVERY_FAILURES]; omega
    refine ⟨?_, ?_, ?_⟩
    · simp only [Subscription.confirm_failed, if_neg hns]
      simp [hs, SUBSCRIPTION_RETRY_PERIOD]
    · simp only [FeedToFetch.fetch_failed, if_neg hnf]
      simp [hf, FEED_PULL_RETRY_PERIOD]
    · rw [hupd]
      simp only [if_neg hnd, htf, Bool.not_false]
      exact ⟨_, rfl, rfl, by simp [he], by simp [he, DELIVERY_RETRY_PERIOD]⟩
  · intro hge
    have hys : sub.confirm_failures ≥ MAX_SUBSCRIPTION_CONFIRM_FAILURES := by
      simp only [hs, MAX_SUBSCRIPTION_CONFIRM_FAILURES]; omega
    have hyf : f.fetching_failures ≥ MAX_FEED_PULL_FAILURES := by
      simp only [hf, MAX_FEED_PULL_FAILURES]; omega
    have hyd : ev.retry_attempts + 1 > ev.max_failures.getD MAX_DELIVERY_FAILURES := by
      simp only [he, hm, Option.getD, MAX_DELIVERY_FAILURES]; omega
    refine ⟨?_, ?_, ?_, ?_⟩
    · simp only [Subscription.confirm_failed, if_pos hys]
    · simp only [FeedToFetch.fetch_failed, if_pos hyf]
    · simp only [FeedToFetch.fetch_failed, if_pos hyf]
    · rw [hupd]
      simp only [if_pos hyd]
      exact ⟨_, rfl, rfl⟩

/-- Witness for the amended C2 at `n = 2`, `now = 1000`: all three flows
schedule the retry at `1000 + 30 * 4 = 1120`. -/
theorem C2_witness :
    Subscription.confirm_failed subW MAX_SUBSCRIPTION_CONFIRM_FAILURES
        SUBSCRIPTION_RETRY_PERIOD 1000 =
      { retry := true
        stored := { subW with
                     eta := 1000 + 30 * 2 ^ 2
                     confirm_failures := 3 }
        task_enqueued := true } ∧
    FeedToFetch.fetch_failed feedW MAX_FEED_PULL_FAILURES
        FEED_PULL_RETRY_PERIOD 1000 =
      { stored := { feedW with
                     eta := 1000 + 30 * 2 ^ 2
                     fetching_failures := 3 }
        retry_enqueued := true } ∧
    ∃ ev2, EventToDeliver.update { evR with retry_attempts := 2 } false []
        1000 = some (ev2, true) ∧
      ev2.totally_failed = false ∧ ev2.retry_attempts = 3 ∧
      ev2.last_modified = 1000 + 30 * 2 ^ 2 :=
  (C2_amended_backoff_boundary 2 1000 subW feedW
      { evR with retry_attempts := 2 } [] rfl rfl rfl rfl rfl
      (by decide)).1 (by decide)

end Hub

namespace Hub

/-- Characterization of `EventToDeliver.update` when there is nothing left to
do: no more subscribers and no failed callbacks — the event is deleted. -/
theorem update_delete_spec (ev : EventToDeliver) (subs : List SubRef)
    (now mf rp : ℕ)
    (hcomb : ev.failed_callbacks ++
      (EventToDeliver.sortFailed subs).map SubRef.key = []) :
    EventToDeliver.update ev false subs now mf rp = none := by
  simp only [EventToDeliver.update]
  simp [hcomb]

/-! ### C5 — sortedness of `failed_callbacks` -/

/-- C5 counterexample: an event in a retry cycle whose remaining failed
callback key `"kZ"` references a subscription with `callback_hash` 99; the
newly failed subscriber `"kA"` has `callback_hash` 10.  After `update`
appends the (sorted) new chunk, the stored list is `["kZ", "kA"]`, whose
referenced hashes `[99, 10]` are not sorted — the whole list is a rotation,
not a sorted list. -/
theorem C5_counterexample :
    (EventToDeliver.update evR true [⟨"kA", 10⟩] 5).map
        (fun p => p.1.failed_callbacks) = some ["kZ", "kA"] ∧
    hashOfKey "kZ" = 99 ∧ hashOfKey "kA" = 10 ∧
    ¬ List.Sorted (· ≤ ·) (["kZ", "kA"].map hashOfKey) :=
  ⟨by decide, rfl, rfl, by decide⟩

/-- C5 as amended: every `update` call sorts the newly failed callbacks by
the `callback_hash` of the referenced Subscriptions before appending them to
`failed_callbacks`; the stored list is always the old list followed by that
sorted segment (the whole list need not be sorted). -/
theorem C5_amended_sorted_append (ev : EventToDeliver) (more : Bool)
    (subs : List SubRef) (now mf rp : ℕ) (res : EventToDeliver × Bool)
    (hres : EventToDeliver.update ev more subs now mf rp = some res) :
    res.1.failed_callbacks =
      ev.failed_callbacks ++ (EventToDeliver.sortFailed subs).map SubRef.key ∧
    List.Sorted (· ≤ ·)
      ((EventToDeliver.sortFailed subs).map SubRef.callback_hash) := by
  constructor
  · cases more with
    | true =>
        rw [update_more_spec] at hres
        injection hres with h2
        rw [← h2]
    | false =>
        by_cases hc : ev.failed_callbacks ++
            (EventToDeliver.sortFailed subs).map SubRef.key = []
        · rw [update_delete_spec ev subs now mf rp hc] at hres
          exact absurd hres (by simp)
        · rw [update_not_more_spec ev subs now mf rp hc] at hres
          dsimp only at hres
          split_ifs at hres with hb
          · injection hres with h2; rw [← h2]
          · injection hres with h2; rw [← h2]
  · exact List.Pairwise.map SubRef.callback_hash (fun a b hab => hab)
      (sortFailed_sorted subs)

/-- Witness for the amended C5 at the counterexample input: the stored list
is the old list `["kZ"]` followed by the sorted new segment `["kA"]`. -/
theorem C5_witness :
    (({ evR with last_modified := 5, failed_callbacks := ["kZ", "kA"] },
        true) : EventToDeliver × Bool).1.failed_callbacks =
      evR.failed_callbacks ++
        (EventToDeliver.sortFailed [⟨"kA", 10⟩]).map SubRef.key ∧
    List.Sorted (· ≤ ·)
      ((EventToDeliver.sortFailed [⟨"kA", 10⟩]).map SubRef.callback_hash) :=
  C5_amended_sorted_append evR true [⟨"kA", 10⟩] 5 MAX_DELIVERY_FAILURES
    DELIVERY_RETRY_PERIOD _ (by decide)

end Hub

namespace Hub

/-- C3: `confirm_subscription` returns `True` iff the verification GET
returned HTTP 2xx with body exactly the generated challenge (for
`subscribe` the Subscription is then stored in state `verified`; for any
other mode it is removed), or the mode is `subscribe` and the status is 404
(the Subscription is archived to `to_delete`); a fetch error or any other
status/body combination returns `False` and leaves the row unchanged. -/
theorem C3_confirm_subscription_spec (sha1h : String → ℕ)
    (mode topic callback : String) (verify_token secret : Option String)
    (lease_seconds : ℕ) (challenge : String) (outcome : FetchOutcome)
    (prior : Option Subscription) (now : ℕ) :
    ((confirm_subscription sha1h mode topic callback verify_token secret
        lease_seconds challenge outcome prior now).ok = true ↔
      ((∃ s c, outcome = FetchOutcome.response s c ∧ 200 ≤ s ∧ s < 300 ∧
         c = challenge) ∨
       (mode = "subscribe" ∧ ∃ c, outcome = FetchOutcome.response 404 c))) ∧
    ((∃ s c, outcome = FetchOutcome.response s c ∧ 200 ≤ s ∧ s < 300 ∧
        c = challenge) →
      (mode = "subscribe" →
        ∃ row, (confirm_subscription sha1h mode topic callback verify_token
            secret lease_seconds challenge outcome prior now).row = some row ∧
          row.subscription_state = SubState.verified) ∧
      (mode ≠ "subscribe" →
        (confirm_subscription sha1h mode topic callback verify_token secret
            lease_seconds challenge outcome prior now).row = none)) ∧
    ((mode = "subscribe" ∧ ∃ c, outcome = FetchOutcome.response 404 c) →
      (confirm_subscription sha1h mode topic callback verify_token secret
          lease_seconds challenge outcome prior now).row =
        Subscription.archive prior) ∧
    ((confirm_subscription sha1h mode topic callback verify_token secret
        lease_seconds challenge outcome prior now).ok = false →
      (confirm_subscription sha1h mode topic callback verify_token secret
          lease_seconds challenge outcome prior now).row = prior) := by
  refine ⟨?_, ?_, ?_, ?_⟩
  · cases outcome with
    | fetch_error => simp [confirm_subscription]
    | response s c =>
        by_cases h1 : 200 ≤ s ∧ s < 300 ∧ c = challenge
        · by_cases hm : mode = "subscribe" <;>
            simp [confirm_subscription, h1, hm] <;>
            first
              | exact Or.inl ⟨s, challenge, ⟨rfl, rfl⟩, h1.1, h1.2.1, rfl⟩
              | exact ⟨s, challenge, ⟨rfl, rfl⟩, h1.1, h1.2.1, rfl⟩
        · by_cases hm : mode = "subscribe" <;> by_cases h404 : s = 404 <;>
            simp [confirm_subscription, h1, hm, h404] <;> tauto
  · rintro ⟨s, c, rfl, hs1, hs2, rfl⟩
    have h1 : 200 ≤ s ∧ s < 300 ∧ c = c := ⟨hs1, hs2, rfl⟩
    constructor
    · intro hm
      refine ⟨(Subscription.insert sha1h prior callback topic verify_token
        secret (min lease_seconds MAX_LEASE_SECONDS) now).1, ?_, ?_⟩
      · simp [confirm_subscription, h1, hm]
      · cases prior <;> rfl
    · intro hm
      simp [confirm_subscription, h1, hm]
  · rintro ⟨hm, c, rfl⟩
    have h1 : ¬ (200 ≤ 404 ∧ (404:ℕ) < 300 ∧ c = challenge) := by omega
    simp [confirm_subscription, h1, hm]
  · intro hok
    cases outcome with
    | fetch_error => simp [confirm_subscription]
    | response s c =>
        by_cases h1 : 200 ≤ s ∧ s < 300 ∧ c = challenge
        · by_cases hm : mode = "subscribe" <;>
            simp [confirm_subscription, h1, hm] at hok
        · by_cases hm : mode = "subscribe" <;> by_cases h404 : s = 404 <;>
            simp [confirm_subscription, h1, hm, h404] at hok ⊢

/-- Witness for C3: a 404 on a subscribe confirmation archives the stored
row (state `to_delete`, `confirm_failures` reset). -/
theorem C3_witness :
    (confirm_subscription (fun _ => 0) "subscribe" "http://y.test/f"
        "http://x.test/cb" (some "tok") none 432000 "ch"
        (FetchOutcome.response 404 "nope") (some subW) 50).row =
      Subscription.archive (some subW) :=
  (C3_confirm_subscription_spec (fun _ => 0) "subscribe" "http://y.test/f"
      "http://x.test/cb" (some "tok") none 432000 "ch"
      (FetchOutcome.response 404 "nope") (some subW) 50).2.2.1
    ⟨rfl, "nope", rfl⟩

end Hub

namespace Hub

/-- Looking up an id that none of the committed records carries falls
through to the underlying store. -/
theorem applyRecords_of_not_mem (stored : String → Option ℕ)
    (records : List FeedEntryRecord) (id : String)
    (hid : id ∉ records.map FeedEntryRecord.entry_id) :
    applyRecords stored records id = stored id := by
  have hf : records.find? (fun r => r.entry_id = id) = none := by
    apply List.find?_eq_none.mpr
    intro r hr
    simp only [decide_eq_true_eq]
    intro he
    exact hid (he ▸ List.mem_map_of_mem FeedEntryRecord.entry_id hr)
  simp [applyRecords, hf]

/-- After committing the records diffed from `l` (ids distinct), looking up
the id of any entry of `l` returns that entry's content hash. -/
theorem applyRecords_self (stored : String → Option ℕ) (h : String → ℕ)
    (l : List (String × String)) (hnd : (l.map Prod.fst).Nodup)
    (ic : String × String) (hic : ic ∈ l) :
    applyRecords stored
        (l.map fun p => (⟨p.1, h p.2⟩ : FeedEntryRecord)) ic.1 =
      some (h ic.2) := by
  induction l with
  | nil => cases hic
  | cons p rest ih =>
      rcases List.mem_cons.mp hic with hic1 | hic2
      · subst hic1
        simp only [applyRecords, List.map_cons]
        rw [List.find?_cons_of_pos]
        simp
      · have hne : ¬ p.1 = ic.1 := by
          intro he
          have hmem : ic.1 ∈ rest.map Prod.fst := List.mem_map_of_mem Prod.fst hic2
          rw [← he] at hmem
          exact (List.nodup_cons.mp hnd).1 hmem
        have hrest := ih (List.nodup_cons.mp hnd).2 hic2
        simp only [applyRecords, List.map_cons] at hrest ⊢
        rw [List.find?_cons_of_neg]
        · exact hrest
        · simp [hne]

end Hub

namespace Hub

/-- C6: when a diff holds more than 200 new or updated entries, `parse_feed`
keeps only the first 200 FeedEntryRecords and entry payloads, builds the
event from them, and returns `False` (partial success, so the fetch is
retried); consequently a 250-entry feed with distinct entry ids and an empty
entry table yields a first event carrying 200 entries and, after the first
commit, a second event carrying the remaining 50. -/
theorem C6_truncation_paging :
    (∀ (format : FeedFormat) (diff : List FeedEntryRecord × List String),
      MAX_NEW_FEED_ENTRY_RECORDS < diff.1.length →
      parse_feed_diffed format diff =
        { parse_successful := false
          saved_records := diff.1.take MAX_NEW_FEED_ENTRY_RECORDS
          event_payloads := some (diff.2.take MAX_NEW_FEED_ENTRY_RECORDS) }) ∧
    (∀ (entries : List (String × String)) (h : String → ℕ),
      entries.length = 250 → (entries.map Prod.fst).Nodup →
      let o1 := parse_feed_diffed FeedFormat.atom
        (find_feed_updates (fun _ => none) h entries)
      let o2 := parse_feed_diffed FeedFormat.atom
        (find_feed_updates (applyRecords (fun _ => none) o1.saved_records)
          h entries)
      o1.parse_successful = false ∧
      o1.event_payloads = some ((entries.take 200).map Prod.snd) ∧
      ((entries.take 200).map Prod.snd).length = 200 ∧
      o2.parse_successful = true ∧
      o2.event_payloads = some ((entries.drop 200).map Prod.snd) ∧
      ((entries.drop 200).map Prod.snd).length = 50) := by
  have T1 : ∀ (format : FeedFormat) (diff : List FeedEntryRecord × List String),
      MAX_NEW_FEED_ENTRY_RECORDS < diff.1.length →
      parse_feed_diffed format diff =
        { parse_successful := false
          saved_records := diff.1.take MAX_NEW_FEED_ENTRY_RECORDS
          event_payloads := some (diff.2.take MAX_NEW_FEED_ENTRY_RECORDS) } := by
    intro format diff hbig
    simp [parse_feed_diffed, hbig]
  refine ⟨T1, ?_⟩
  intro entries h hlen hnodup
  -- first diff: nothing stored, every entry is new
  have hkeep0 : entries.filter (keepEntry (fun _ => none) h) = entries :=
    List.filter_eq_self.mpr (fun a _ => by simp [keepEntry])
  have hd1 : find_feed_updates (fun _ => none) h entries =
      (entries.map fun ic => (⟨ic.1, h ic.2⟩ : FeedEntryRecord),
       entries.map Prod.snd) := by
    rw [find_feed_updates_eq, hkeep0]
  have hbig1 : MAX_NEW_FEED_ENTRY_RECORDS <
      (entries.map fun ic => (⟨ic.1, h ic.2⟩ : FeedEntryRecord)).length := by
    simp [hlen, MAX_NEW_FEED_ENTRY_RECORDS]
  have ho1 : parse_feed_diffed FeedFormat.atom
      (find_feed_updates (fun _ => none) h entries) =
      { parse_successful := false
        saved_records := (entries.take 200).map
          fun ic => (⟨ic.1, h ic.2⟩ : FeedEntryRecord)
        event_payloads := some ((entries.take 200).map Prod.snd) } := by
    rw [hd1, T1 FeedFormat.atom _ hbig1]
    simp [MAX_NEW_FEED_ENTRY_RECORDS, List.map_take]
  -- the store after committing the first 200 records
  have hnodup_take : ((entries.take 200).map Prod.fst).Nodup := by
    rw [List.map_take]
    exact List.Nodup.sublist (List.take_sublist 200 (entries.map Prod.fst))
      hnodup
  have hsplit : entries.take 200 ++ entries.drop 200 = entries :=
    List.take_append_drop 200 entries
  have hdisj : ∀ ic ∈ entries.drop 200,
      ic.1 ∉ (entries.take 200).map Prod.fst := by
    intro ic hic hmem
    have hnd2 : ((entries.take 200).map Prod.fst ++
        (entries.drop 200).map Prod.fst).Nodup := by
      rw [← List.map_append, hsplit]; exact hnodup
    exact (List.nodup_append.mp hnd2).2.2 hmem
      (List.mem_map_of_mem Prod.fst hic)
  -- second diff: the first 200 are unchanged, the last 50 still new
  have hkeep2 : entries.filter
      (keepEntry (applyRecords (fun _ => none)
        ((entries.take 200).map fun ic => (⟨ic.1, h ic.2⟩ : FeedEntryRecord)))
        h) = entries.drop 200 := by
    have hk : entries.filter
        (keepEntry (applyRecords (fun _ => none)
          ((entries.take 200).map fun ic => (⟨ic.1, h ic.2⟩ : FeedEntryRecord)))
          h) =
        (entries.take 200 ++ entries.drop 200).filter
        (keepEntry (applyRecords (fun _ => none)
          ((entries.take 200).map fun ic => (⟨ic.1, h ic.2⟩ : FeedEntryRecord)))
          h) := by rw [hsplit]
    rw [hk, List.filter_append]
    have h1 : (entries.take 200).filter
        (keepEntry (applyRecords (fun _ => none)
          ((entries.take 200).map fun ic => (⟨ic.1, h ic.2⟩ : FeedEntryRecord)))
          h) = [] := by
      apply List.filter_eq_nil_iff.mpr
      intro ic hic
      have hself := applyRecords_self (fun _ => none) h (entries.take 200)
        hnodup_take ic hic
      simp only [keepEntry, decide_eq_true_eq, not_not]
      exact hself
    have h2 : (entries.drop 200).filter
        (keepEntry (applyRecords (fun _ => none)
          ((entries.take 200).map fun ic => (⟨ic.1, h ic.2⟩ : FeedEntryRecord)))
          h) = entries.drop 200 := by
      apply List.filter_eq_self.mpr
      intro ic hic
      have hnone : applyRecords (fun _ => none)
          ((entries.take 200).map fun ic => (⟨ic.1, h ic.2⟩ : FeedEntryRecord))
          ic.1 = none := by
        rw [applyRecords_of_not_mem]
        intro hmem
        apply hdisj ic hic
        have : (List.map FeedEntryRecord.entry_id
            ((entries.take 200).map fun ic => (⟨ic.1, h ic.2⟩ : FeedEntryRecord)))
            = (entries.take 200).map Prod.fst := by
          rw [List.map_map]; rfl
        rwa [this] at hmem
      simp only [keepEntry, decide_eq_true_eq]
      rw [hnone]
      simp
    rw [h1, h2, List.nil_append]
  have hd2 : find_feed_updates (applyRecords (fun _ => none)
      ((entries.take 200).map fun ic => (⟨ic.1, h ic.2⟩ : FeedEntryRecord)))
      h entries =
      ((entries.drop 200).map fun ic => (⟨ic.1, h ic.2⟩ : FeedEntryRecord),
       (entries.drop 200).map Prod.snd) := by
    rw [find_feed_updates_eq, hkeep2]
  have hlen_drop : (entries.drop 200).length = 50 := by
    rw [List.length_drop, hlen]
  have hne2 : ((entries.drop 200).map
      fun ic => (⟨ic.1, h ic.2⟩ : FeedEntryRecord)) ≠ [] := by
    simp only [ne_eq, List.map_eq_nil_iff]
    intro hd
    rw [hd] at hlen_drop
    simp at hlen_drop
  have ho2 : parse_feed_diffed FeedFormat.atom
      (find_feed_updates (applyRecords (fun _ => none)
        ((entries.take 200).map fun ic => (⟨ic.1, h ic.2⟩ : FeedEntryRecord)))
        h entries) =
      { parse_successful := true
        saved_records := (entries.drop 200).map
          fun ic => (⟨ic.1, h ic.2⟩ : FeedEntryRecord)
        event_payloads := some ((entries.drop 200).map Prod.snd) } := by
    rw [hd2]
    have hsmall : ¬ MAX_NEW_FEED_ENTRY_RECORDS <
        ((entries.drop 200).map
          fun ic => (⟨ic.1, h ic.2⟩ : FeedEntryRecord)).length := by
      simp only [List.length_map, hlen_drop, MAX_NEW_FEED_ENTRY_RECORDS]
      omega
    simp [parse_feed_diffed, hsmall, hne2, hlen, MAX_NEW_FEED_ENTRY_RECORDS]
  refine ⟨?_, ?_, ?_, ?_, ?_, ?_⟩
  · rw [ho1]
  · rw [ho1]
  · simp [List.length_take, hlen]
  · rw [ho1]; dsimp only; rw [ho2]
  · rw [ho1]; dsimp only; rw [ho2]
  · simp [hlen]


/-- Witness for C6: a concrete 250-entry feed with distinct ids. -/
theorem C6_witness :
    (let entries : List (String × String) :=
       (List.range 250).map fun i => (String.mk (List.replicate i 'a'), "c")
     let o1 := parse_feed_diffed FeedFormat.atom
       (find_feed_updates (fun _ => none) String.length entries)
     let o2 := parse_feed_diffed FeedFormat.atom
       (find_feed_updates (applyRecords (fun _ => none) o1.saved_records)
         String.length entries)
     o1.parse_successful = false ∧
     o1.event_payloads = some ((entries.take 200).map Prod.snd) ∧
     ((entries.take 200).map Prod.snd).length = 200 ∧
     o2.parse_successful = true ∧
     o2.event_payloads = some ((entries.drop 200).map Prod.snd) ∧
     ((entries.drop 200).map Prod.snd).length = 50) := by
  have hlen : ((List.range 250).map
      fun i => ((String.mk (List.replicate i 'a'), "c") : String × String)).length
        = 250 := by
    simp
  have hnd : (((List.range 250).map
      fun i => ((String.mk (List.replicate i 'a'), "c") : String × String)).map
        Prod.fst).Nodup := by
    rw [List.map_map]
    refine List.Nodup.map ?_ (List.nodup_range 250)
    intro i j hij
    have h2 := congrArg List.length (congrArg String.data hij)
    simpa using h2
  exact C6_truncation_paging.2 _ String.length hlen hnd

end Hub

namespace Hub

/-! ### C7 — feed-identity alias round trip -/

/-- C7 counterexample: starting from empty stores,
`update(F, T1); update(F, T2)` alone do not make
`derive_additional_topics({T1})` map `T1` at all — the expansion requires a
`KnownFeed` row for `T1` carrying the feed id, which `update` does not
create; topics with no `KnownFeed` are omitted entirely. -/
theorem C7_counterexample :
    KnownFeedIdentity.derive_additional_topics (fun _ => none)
        (KnownFeedIdentity.update
          (KnownFeedIdentity.update (fun _ => none) "tag:feed" "http://a/feed")
          "tag:feed" "http://b/feed")
        ["http://a/feed"] "http://a/feed" = none ∧
    ¬ ∃ aliases,
        KnownFeedIdentity.derive_additional_topics (fun _ => none)
          (KnownFeedIdentity.update
            (KnownFeedIdentity.update (fun _ => none) "tag:feed"
              "http://a/feed")
            "tag:feed" "http://b/feed")
          ["http://a/feed"] "http://a/feed" = some aliases ∧
        "http://a/feed" ∈ aliases ∧ "http://b/feed" ∈ aliases := by
  constructor
  · decide
  · rintro ⟨aliases, hal, -⟩
    rw [show KnownFeedIdentity.derive_additional_topics (fun _ => none)
        (KnownFeedIdentity.update
          (KnownFeedIdentity.update (fun _ => none) "tag:feed" "http://a/feed")
          "tag:feed" "http://b/feed")
        ["http://a/feed"] "http://a/feed" = none by decide] at hal
    exact Option.noConfusion hal

/-- C7 as amended: provided a `KnownFeed` row for `T1` exists whose
`feed_id` is `F` (non-blank after `strip()`), then after
`update(F, T1); update(F, T2)` the expansion of `{T1}` contains both `T1`
and `T2`; after a subsequent `remove(F, T2)` it no longer contains `T2`;
and a `KnownFeedIdentity` whose topic list empties is deleted. -/
theorem C7_amended_alias_roundtrip (T1 T2 F : String)
    (kf : String → Option KnownFeed) (σ : String → Option KnownFeedIdentity)
    (hσ : σ F = none) (hkf : kf T1 = some { topic := T1, feed_id := some F })
    (hF : pyStrip F ≠ "") (hne : T2 ≠ T1) :
    (∃ aliases, KnownFeedIdentity.derive_additional_topics kf
        (KnownFeedIdentity.update (KnownFeedIdentity.update σ F T1) F T2)
        [T1] T1 = some aliases ∧ T1 ∈ aliases ∧ T2 ∈ aliases) ∧
    (∀ aliases2, KnownFeedIdentity.derive_additional_topics kf
        (KnownFeedIdentity.remove
          (KnownFeedIdentity.update (KnownFeedIdentity.update σ F T1) F T2)
          F T2)
        [T1] T1 = some aliases2 → T2 ∉ aliases2) ∧
    KnownFeedIdentity.remove
        (KnownFeedIdentity.remove
          (KnownFeedIdentity.update (KnownFeedIdentity.update σ F T1) F T2)
          F T2)
        F T1 F = none := by
  have hs1 : KnownFeedIdentity.update σ F T1 F =
      some { feed_id := F, topics := [T1] } := by
    simp [KnownFeedIdentity.update, hσ]
  have hs2 : KnownFeedIdentity.update (KnownFeedIdentity.update σ F T1) F T2 F
      = some { feed_id := F, topics := [T1, T2] } := by
    simp [KnownFeedIdentity.update, hσ, hne]
  have hd2 : KnownFeedIdentity.derive_additional_topics kf
      (KnownFeedIdentity.update (KnownFeedIdentity.update σ F T1) F T2)
      [T1] T1 = some [T1, T2] := by
    simp [KnownFeedIdentity.derive_additional_topics, hkf, hs2, hF, hne,
      KnownFeedIdentity.setInsert]
  have hs3 : KnownFeedIdentity.remove
      (KnownFeedIdentity.update (KnownFeedIdentity.update σ F T1) F T2) F T2 F
      = some { feed_id := F, topics := [T1] } := by
    have hne2 : T1 ≠ T2 := fun he => hne he.symm
    simp [KnownFeedIdentity.remove, hs2, hne, hne2, List.erase_cons]
  have hd3 : KnownFeedIdentity.derive_additional_topics kf
      (KnownFeedIdentity.remove
        (KnownFeedIdentity.update (KnownFeedIdentity.update σ F T1) F T2)
        F T2)
      [T1] T1 = some [T1] := by
    simp [KnownFeedIdentity.derive_additional_topics, hkf, hs3, hF,
      KnownFeedIdentity.setInsert]
  refine ⟨⟨[T1, T2], hd2, by simp, by simp⟩, ?_, ?_⟩
  · intro aliases2 hal
    rw [hd3] at hal
    injection hal with hal2
    rw [← hal2]
    simp [hne]
  · have hgen : ∀ (st : String → Option KnownFeedIdentity),
        st F = some { feed_id := F, topics := [T1] } →
        KnownFeedIdentity.remove st F T1 F = none := by
      intro st hst
      simp [KnownFeedIdentity.remove, hst]
    exact hgen _ hs3


/-- Witness for the amended C7 at concrete topic URLs and feed id. -/
theorem C7_witness :
    (∃ aliases, KnownFeedIdentity.derive_additional_topics kfW
        (KnownFeedIdentity.update
          (KnownFeedIdentity.update (fun _ => none) "tag:feed" "http://a/feed")
          "tag:feed" "http://b/feed")
        ["http://a/feed"] "http://a/feed" = some aliases ∧
      "http://a/feed" ∈ aliases ∧ "http://b/feed" ∈ aliases) ∧
    (∀ aliases2, KnownFeedIdentity.derive_additional_topics kfW
        (KnownFeedIdentity.remove
          (KnownFeedIdentity.update
            (KnownFeedIdentity.update (fun _ => none) "tag:feed"
              "http://a/feed")
            "tag:feed" "http://b/feed")
          "tag:feed" "http://b/feed")
        ["http://a/feed"] "http://a/feed" = some aliases2 →
      "http://b/feed" ∉ aliases2) ∧
    KnownFeedIdentity.remove
        (KnownFeedIdentity.remove
          (KnownFeedIdentity.update
            (KnownFeedIdentity.update (fun _ => none) "tag:feed"
              "http://a/feed")
            "tag:feed" "http://b/feed")
          "tag:feed" "http://b/feed")
        "tag:feed" "http://a/feed" "tag:feed" = none :=
  C7_amended_alias_roundtrip "http://a/feed" "http://b/feed" "tag:feed" kfW
    (fun _ => none) rfl (by decide) (by decide) (by decide)

end Hub

namespace Hub

/-! ### C1 — atomicity of the entries + event commit -/

set_option maxRecDepth 10000 in
/-- C1 failing input: `entities_to_save` = `[feed_record, event,
entry 0 … entry 158]` is segmented into groups of 100.  Group 0 (the
FeedRecord, the EventToDeliver and 98 small entries) fits the RPC limit;
group 1 (61 large entries) does not, but both its halves do.  The first
transaction attempt pops group 0 off `all_entities`, then aborts on group 1
— rolling the buffered writes back without restoring group 0.  The retry
commits only group 1's halves, and `event_to_deliver.enqueue()` still runs:
the committing transaction writes FeedEntryRecords 98–158 *without* the
EventToDeliver (or the FeedRecord), yet enqueues the delivery task. -/
theorem C1_commit_drops_event :
    parse_feed_commit tooBigRpc entitiesSplit =
      some { committed := (List.range' 98 61).map PutEntity.entry
             delivery_task_enqueued := true } ∧
    PutEntity.event ∉ (List.range' 98 61).map PutEntity.entry ∧
    PutEntity.feed_record ∉ (List.range' 98 61).map PutEntity.entry ∧
    PutEntity.entry 98 ∈ (List.range' 98 61).map PutEntity.entry := by
  refine ⟨?_, by decide, by decide, by decide⟩
  decide

end Hub
